import Mathlib

/-!
Shallow embedding of the `music_fsl` repository (src/music_fsl/backbone.py,
src/music_fsl/train.py).

Tensors are modelled by their shapes: a `List Nat`, outermost dimension
first.  Every torch operation that can raise a runtime error is modelled as
a function into `Option (List Nat)`, with `none` standing for the error.
Floating-point tensor values are not modelled (only the prototypical-network
head, whose arithmetic is exact, is modelled at value level over `ℚ`).
-/

namespace MusicFSL

/-- The `padding` argument of `nn.Conv2d`.  The source always passes the
string `'same'`; an integer padding is also representable. -/
inductive Padding where
  | same
  | explicitPad (n : Nat)
deriving DecidableEq

/-- Configuration of `ConvBlock.__init__` (backbone.py, lines 11-20): the
constructor arguments stored in `self.conv`, `self.gn`, `self.maxpool`. -/
structure ConvBlock where
  in_channels : Nat
  out_channels : Nat
  kernel_size : Nat
  stride : Nat
  padding : Padding
  num_groups : Nat
  max_pool_size : Nat
deriving DecidableEq

/-- Shape semantics of `nn.Conv2d(in_channels, out_channels, kernel_size,
stride=1, padding='same')` applied to a rank-4 input `[b, ch, h, w]`:
with `'same'` padding and stride 1 the spatial size is preserved and the
channel dimension becomes `out_channels`.  The call errors (`none`) when the
input is not rank 4, the channel count differs from `in_channels`, or a
spatial dimension is empty (torch: "Output size is too small"). -/
def conv2dShape (c : ConvBlock) (s : List Nat) : Option (List Nat) :=
  match s with
  | [b, ch, h, w] =>
    if c.stride = 1 ∧ c.padding = Padding.same ∧ ch = c.in_channels ∧ 1 ≤ h ∧ 1 ≤ w then
      some [b, c.out_channels, h, w]
    else none
  | _ => none

/-- Shape semantics of `nn.GroupNorm(num_groups, num_channels)`: the shape is
preserved; the call errors when the input has no channel dimension or its
channel count differs from `num_channels`.  (`num_channels % num_groups == 0`
is validated by the `GroupNorm` constructor; it holds for all five blocks:
32/8, 64/16, 128/32, 256/64, 512/128.) -/
def groupNormShape (num_groups num_channels : Nat) (s : List Nat) : Option (List Nat) :=
  match num_groups, s with
  | _, b :: ch :: rest => if ch = num_channels then some (b :: ch :: rest) else none
  | _, _ => none

/-- Shape semantics of `nn.ReLU()`: elementwise, shape preserved, never errors. -/
def reluShape (s : List Nat) : Option (List Nat) :=
  some s

/-- Shape semantics of `nn.MaxPool2d(k)` (kernel `k`, default stride `k`, no
padding) on a rank-4 input: both spatial dimensions are floor-divided by `k`;
the call errors when a spatial dimension is smaller than the kernel
(torch: "Output size is too small"). -/
def maxPool2dShape (k : Nat) (s : List Nat) : Option (List Nat) :=
  match s with
  | [b, c, h, w] => if k ≤ h ∧ k ≤ w then some [b, c, h / k, w / k] else none
  | _ => none

/-- `ConvBlock.forward` (backbone.py, lines 22-27): convolution, then group
normalization, then ReLU, then max pooling, in that order. -/
def ConvBlock.forward (c : ConvBlock) (x : List Nat) : Option (List Nat) :=
  (((conv2dShape c x).bind (groupNormShape c.num_groups c.out_channels)).bind reluShape).bind
    (maxPool2dShape c.max_pool_size)

/-- Configuration of `torchaudio.transforms.MelSpectrogram(n_mels=64,
sample_rate=sample_rate)` (backbone.py, lines 41-43).  The remaining
parameters take the torchaudio defaults: `n_fft = 400`,
`win_length = n_fft`, `hop_length = win_length // 2 = 200`, `center=True`
with reflect padding. -/
structure MelSpectrogram where
  n_mels : Nat
  sample_rate : Nat
  n_fft : Nat
  hop_length : Nat
deriving DecidableEq

/-- Shape semantics of `MelSpectrogram` on a rank-3 input `[b, c, t]`: the
output is `[b, c, n_mels, 1 + t / hop_length]` (`center=True` pads
`n_fft / 2` on each side, so the frame count is `1 + t // hop_length`).
Reflect padding requires the padding to be smaller than the signal, so the
call errors when `t ≤ n_fft / 2`. -/
def MelSpectrogram.forwardShape (m : MelSpectrogram) (s : List Nat) : Option (List Nat) :=
  match s with
  | [b, c, t] =>
    if m.n_fft / 2 < t then some [b, c, m.n_mels, 1 + t / m.hop_length] else none
  | _ => none

/-- The `Backbone` module state (backbone.py, lines 29-49): the attributes
assigned in `__init__`. -/
structure Backbone where
  sample_rate : Nat
  melspec : MelSpectrogram
  conv1 : ConvBlock
  conv2 : ConvBlock
  conv3 : ConvBlock
  conv4 : ConvBlock
  conv5 : ConvBlock
deriving DecidableEq

/-- `Backbone.__init__(sample_rate)` (backbone.py, lines 37-49), with the
five `ConvBlock` constructor calls transcribed literally. -/
def Backbone.init (sample_rate : Nat) : Backbone :=
  { sample_rate := sample_rate
    melspec := { n_mels := 64, sample_rate := sample_rate, n_fft := 400, hop_length := 200 }
    conv1 := ⟨1, 32, 3, 1, Padding.same, 8, 2⟩
    conv2 := ⟨32, 64, 3, 1, Padding.same, 16, 2⟩
    conv3 := ⟨64, 128, 3, 1, Padding.same, 32, 2⟩
    conv4 := ⟨128, 256, 3, 1, Padding.same, 64, 2⟩
    conv5 := ⟨256, 512, 1, 1, Padding.same, 128, 4⟩ }

/-- The two `assert` statements opening `Backbone.forward` (backbone.py,
lines 52-53): `x.ndim == 3` and `x.shape[1] == 1`, with Python's
left-to-right short-circuit (the second is only reached at rank 3). -/
def shapeAssertOk (s : List Nat) : Bool :=
  s.length == 3 && s.getD 1 0 == 1

/-- Shape semantics of `x.mean(dim=-1)`: the last dimension is removed;
errors on a rank-0 input ("dimension out of range"). -/
def meanLastShape (s : List Nat) : Option (List Nat) :=
  match s with
  | [] => none
  | _ :: _ => some s.dropLast

/-- Shape semantics of `x.squeeze(-1)`: the last dimension is removed when
it equals 1, otherwise the shape is unchanged. -/
def squeezeLast (s : List Nat) : List Nat :=
  if s.getLast? = some 1 then s.dropLast else s

/-- The closing statements of `Backbone.forward` (backbone.py, lines 63-66):
`x = x.mean(dim=-1)` then `x = x.squeeze(-1).squeeze(-1)`. -/
def finalStage (s : List Nat) : Option (List Nat) :=
  (meanLastShape s).map fun t => squeezeLast (squeezeLast t)

/-- The feature pipeline of `Backbone.forward` (backbone.py, lines 55-61):
`self.melspec`, then `self.conv1` through `self.conv5`, sequentially. -/
def Backbone.features (m : Backbone) (s : List Nat) : Option (List Nat) :=
  (((((m.melspec.forwardShape s).bind m.conv1.forward).bind m.conv2.forward).bind
      m.conv3.forward).bind m.conv4.forward).bind m.conv5.forward

/-- `Backbone.forward` (backbone.py, lines 51-68) at shape level: the two
asserts, the mel spectrogram, the five conv blocks, the time-mean and the
two squeezes.  `none` models a raised error (failed assert or torch runtime
error). -/
def Backbone.forwardShape (m : Backbone) (s : List Nat) : Option (List Nat) :=
  if shapeAssertOk s then (m.features s).bind finalStage else none

/-- An input batch as handed to `Backbone.forward`: its shape together with
the sample rate at which the audio it holds was actually recorded.  A torch
tensor carries no sample-rate metadata, so `actualSampleRate` is invisible
to the code: `Backbone.forward` can only use the shape. -/
structure AudioBatch where
  shape : List Nat
  actualSampleRate : Nat
deriving DecidableEq

/-- `Backbone.forward` on an input batch: only the tensor (here: its shape)
is consulted; the recording's actual sample rate is not an input of the
computation. -/
def Backbone.forward (m : Backbone) (x : AudioBatch) : Option (List Nat) :=
  m.forwardShape x.shape

/-- State-passing embedding of the `Backbone.forward` method body: each
statement receives the module state (`self`) and the local `x`, and returns
the module state after the statement together with the new `x`.  Every
statement of the body only reads attributes of `self` and rebinds the local
`x`; none assigns to an attribute. -/
def Backbone.forwardM (m : Backbone) (x : AudioBatch) : Backbone × Option (List Nat) :=
  if shapeAssertOk x.shape then
    let st1 : Backbone × Option (List Nat) := (m, (some x.shape).bind m.melspec.forwardShape)
    let st2 : Backbone × Option (List Nat) := (st1.1, st1.2.bind st1.1.conv1.forward)
    let st3 : Backbone × Option (List Nat) := (st2.1, st2.2.bind st2.1.conv2.forward)
    let st4 : Backbone × Option (List Nat) := (st3.1, st3.2.bind st3.1.conv3.forward)
    let st5 : Backbone × Option (List Nat) := (st4.1, st4.2.bind st4.1.conv4.forward)
    let st6 : Backbone × Option (List Nat) := (st5.1, st5.2.bind st5.1.conv5.forward)
    (st6.1, st6.2.bind finalStage)
  else (m, none)

/-- The stages of `Backbone.forward` after the asserts, as a list of
shape transformers, in source order. -/
def Backbone.stages (m : Backbone) : List (List Nat → Option (List Nat)) :=
  [m.melspec.forwardShape, m.conv1.forward, m.conv2.forward, m.conv3.forward,
   m.conv4.forward, m.conv5.forward, finalStage]

/-- Big-step evaluation of a list of stages from a shape: either some stage
errors (the whole run errors), or every stage succeeds in sequence. -/
inductive RunStages : List (List Nat → Option (List Nat)) → List Nat → Option (List Nat) → Prop where
  | done (s : List Nat) : RunStages [] s (some s)
  | fail (f : List Nat → Option (List Nat)) (fs : List (List Nat → Option (List Nat)))
      (s : List Nat) : f s = none → RunStages (f :: fs) s none
  | step (f : List Nat → Option (List Nat)) (fs : List (List Nat → Option (List Nat)))
      (s t : List Nat) (o : Option (List Nat)) :
      f s = some t → RunStages fs t o → RunStages (f :: fs) s o

/-- Big-step evaluation of `Backbone.forward` on an input batch: the asserts
reject the input, or the stage list runs to an outcome. -/
inductive ForwardEval (m : Backbone) (x : AudioBatch) : Option (List Nat) → Prop where
  | reject : shapeAssertOk x.shape = false → ForwardEval m x none
  | accept (o : Option (List Nat)) : shapeAssertOk x.shape = true →
      RunStages m.stages x.shape o → ForwardEval m x o

/-- A model parameter as seen by `count_parameters`: its shape and its
`requires_grad` flag. -/
structure Parameter where
  shape : List Nat
  requires_grad : Bool
deriving DecidableEq

/-- `p.numel()`: the number of elements of the parameter tensor. -/
def Parameter.numel (p : Parameter) : Nat :=
  p.shape.prod

/-- A model as seen by `count_parameters`: the list returned by
`model.parameters()`. -/
structure Model where
  parameters : List Parameter
deriving DecidableEq

/-- `count_parameters` (backbone.py, lines 71-72):
`sum(p.numel() for p in model.parameters() if p.requires_grad)`. -/
def count_parameters (m : Model) : Nat :=
  ((m.parameters.filter fun p => p.requires_grad).map Parameter.numel).sum

/-- Modelled from the spec: `PrototypicalNet` (module `music_fsl.protonet`)
is imported by train.py but its source file is not in the repository.
Pointwise sum of a list of equal-length embedding vectors, the accumulation
underlying the per-class mean of spec section 4.2. -/
def vecSum : List (List ℚ) → List ℚ
  | [] => []
  | [v] => v
  | v :: vs => List.zipWith (fun a b => a + b) v (vecSum vs)

/-- Modelled from the spec: "computes a class prototype as the mean
embedding per class" (spec sections 2 and 4.2) — the pointwise mean of the
class's support embeddings. -/
def prototype (support : List (List ℚ)) : List ℚ :=
  (vecSum support).map fun a => a / (support.length : ℚ)

/-- Modelled from the spec: squared Euclidean distance between two
embedding vectors, `Σ (qᵢ - pᵢ)²`. -/
def sqDist (q p : List ℚ) : ℚ :=
  (List.zipWith (fun a b => (a - b) ^ 2) q p).sum

/-- Modelled from the spec: "computes a logit per class as the negative
squared Euclidean distance ... to each prototype" (spec section 4.2). -/
def logit (q p : List ℚ) : ℚ :=
  -sqDist q p
/-! ## Helper lemmas -/

-- Symbolic evaluation of the feature pipeline on a batch of `B` mono clips
-- of `S` samples each.  `12600` is the least sample count whose spectrogram
-- has at least 64 frames, the number needed to survive the five max-pooling
-- stages on the time axis (`1 + 12600 / 200 = 64`).
theorem features_eval (r B S : Nat) (hS : 12600 ≤ S) :
    (Backbone.init r).features [B, 1, S] =
      some [B, 512, 1, (1 + S / 200) / 2 / 2 / 2 / 2 / 4] := by
  have h200 : 200 < S := by omega
  have a1 : 1 ≤ 1 + S / 200 := by omega
  have a2 : 2 ≤ 1 + S / 200 := by omega
  have b1 : 1 ≤ (1 + S / 200) / 2 := by omega
  have b2 : 2 ≤ (1 + S / 200) / 2 := by omega
  have c1 : 1 ≤ (1 + S / 200) / 2 / 2 := by omega
  have c2 : 2 ≤ (1 + S / 200) / 2 / 2 := by omega
  have d1 : 1 ≤ (1 + S / 200) / 2 / 2 / 2 := by omega
  have d2 : 2 ≤ (1 + S / 200) / 2 / 2 / 2 := by omega
  have e1 : 1 ≤ (1 + S / 200) / 2 / 2 / 2 / 2 := by omega
  have e2 : 4 ≤ (1 + S / 200) / 2 / 2 / 2 / 2 := by omega
  simp [Backbone.features, Backbone.init, MelSpectrogram.forwardShape, ConvBlock.forward,
    conv2dShape, groupNormShape, reluShape, maxPool2dShape, h200,
    a1, a2, b1, b2, c1, c2, d1, d2, e1, e2]

-- Symbolic evaluation of the whole forward pass under the same hypothesis.
theorem forwardShape_eval (r B S : Nat) (hS : 12600 ≤ S) :
    (Backbone.init r).forwardShape [B, 1, S] = some [B, 512] := by
  have hf := features_eval r B S hS
  have ha : shapeAssertOk [B, 1, S] = true := rfl
  simp only [Backbone.forwardShape, ha, if_true, hf]
  rfl

-- The stage-list evaluation relation is deterministic.
theorem runStages_det {fs : List (List Nat → Option (List Nat))} {s : List Nat}
    {o₁ o₂ : Option (List Nat)} (h₁ : RunStages fs s o₁) (h₂ : RunStages fs s o₂) :
    o₁ = o₂ := by
  induction h₁ generalizing o₂ with
  | done s =>
    cases h₂
    rfl
  | fail f fs s hf =>
    cases h₂ with
    | fail _ _ _ _ => rfl
    | step _ _ _ t _ hft _ => rw [hf] at hft; cases hft
  | step f fs s t o hf _ ih =>
    cases h₂ with
    | fail _ _ _ hnone => rw [hf] at hnone; cases hnone
    | step _ _ _ t' o' hf' h' =>
      rw [hf] at hf'
      cases hf'
      exact ih h'

/-- Functional evaluation of a stage list: thread the shape through the
stages, short-circuiting on the first error. -/
def runList (fs : List (List Nat → Option (List Nat))) (s : List Nat) : Option (List Nat) :=
  fs.foldl (fun o f => o.bind f) (some s)

theorem foldl_bind_none (fs : List (List Nat → Option (List Nat))) :
    fs.foldl (fun o f => o.bind f) none = none := by
  induction fs with
  | nil => rfl
  | cons f fs ih => simpa using ih

-- The relation agrees with functional evaluation of the stage list.
theorem runStages_runList (fs : List (List Nat → Option (List Nat))) (s : List Nat) :
    RunStages fs s (runList fs s) := by
  induction fs generalizing s with
  | nil => exact RunStages.done s
  | cons f fs ih =>
    cases hfs : f s with
    | none =>
      have hnil : runList (f :: fs) s = none := by
        simp [runList, hfs, foldl_bind_none]
      rw [hnil]
      exact RunStages.fail f fs s hfs
    | some t =>
      have hstep : runList (f :: fs) s = runList fs t := by
        simp [runList, hfs]
      rw [hstep]
      exact RunStages.step f fs s t _ hfs (ih t)

-- `Backbone.forward` is a complete run of the evaluation relation.
theorem forwardEval_forward (m : Backbone) (x : AudioBatch) :
    ForwardEval m x (m.forward x) := by
  cases ha : shapeAssertOk x.shape with
  | false =>
    have hnone : m.forward x = none := by
      simp [Backbone.forward, Backbone.forwardShape, ha]
    rw [hnone]
    exact ForwardEval.reject ha
  | true =>
    have hrl : m.forward x = runList m.stages x.shape := by
      simp only [Backbone.forward, Backbone.forwardShape, ha, if_true]
      rfl
    rw [hrl]
    exact ForwardEval.accept _ ha (runStages_runList _ _)

-- The squared Euclidean distance of a vector to itself is zero.
theorem sqDist_self (a : List ℚ) : sqDist a a = 0 := by
  induction a with
  | nil => rfl
  | cons x xs ih =>
    simp only [sqDist, List.zipWith_cons_cons, List.sum_cons, sub_self] at ih ⊢
    simp [ih]

-- Squared Euclidean distance is nonnegative.
theorem sqDist_nonneg (q p : List ℚ) : 0 ≤ sqDist q p := by
  induction q generalizing p with
  | nil => simp [sqDist]
  | cons x xs ih =>
    cases p with
    | nil => simp [sqDist]
    | cons y ys =>
      have hys := ih ys
      simp only [sqDist, List.zipWith_cons_cons, List.sum_cons] at hys ⊢
      have h2 : 0 ≤ (x - y) ^ 2 := sq_nonneg _
      linarith

/-! ## Claims -/

/-- Claim C1: for every input of shape `(B, 1, S)` with `B ≥ 1` and `S`
large enough to survive the pooling chain (at least 12600 samples, i.e. at
least 64 spectrogram frames), `Backbone.forward` returns a tensor of shape
`(B, 512)`; in particular a `(4, 1, 16000)` batch yields `(4, 512)` (see the
witness). -/
theorem backbone_output_shape (r B S : Nat) (hB : 1 ≤ B) (hS : 12600 ≤ S) :
    (Backbone.init r).forwardShape [B, 1, S] = some [B, 512] :=
  forwardShape_eval r B S hS

theorem backbone_output_shape_witness :
    1 ≤ 4 ∧ 12600 ≤ 16000 ∧
      (Backbone.init 16000).forwardShape [4, 1, 16000] = some [4, 512] :=
  ⟨by decide, by decide, backbone_output_shape 16000 4 16000 (by decide) (by decide)⟩

/-- Claim C2: an input whose rank is not 3 or whose channel dimension
(axis 1) is not 1 makes `Backbone.forward` signal an error (here: `none`)
immediately, and a rank-3 single-channel input passes the validation. -/
theorem backbone_input_validation (m : Backbone) (x : AudioBatch) :
    ((x.shape.length ≠ 3 ∨ x.shape.getD 1 0 ≠ 1) → m.forward x = none) ∧
    (x.shape.length = 3 → x.shape.getD 1 0 = 1 → shapeAssertOk x.shape = true) := by
  constructor
  · intro h
    cases ha : shapeAssertOk x.shape with
    | false => simp [Backbone.forward, Backbone.forwardShape, ha]
    | true =>
      exfalso
      simp only [shapeAssertOk, Bool.and_eq_true, beq_iff_eq] at ha
      tauto
  · intro h1 h2
    simp only [shapeAssertOk, Bool.and_eq_true, beq_iff_eq]
    exact ⟨h1, h2⟩

theorem backbone_input_validation_witness :
    (Backbone.init 16000).forward ⟨[4, 16000], 16000⟩ = none ∧
      shapeAssertOk [4, 1, 16000] = true :=
  ⟨(backbone_input_validation (Backbone.init 16000) ⟨[4, 16000], 16000⟩).1 (Or.inl (by decide)),
   (backbone_input_validation (Backbone.init 16000) ⟨[4, 1, 16000], 16000⟩).2 rfl rfl⟩

/-- Claim C3: after the mel-spectrogram transform, `Backbone` applies five
sequential convolutional blocks with channel widths 1→32→64→128→256→512;
every convolution has stride 1 and `'same'` padding; each block applies, in
order, convolution, group normalization, ReLU, and max-pooling, where the
pooling downsamples each spatial dimension by 2 in the first four blocks and
by 4 in the fifth. -/
theorem backbone_architecture (r k b c h w : Nat) (hk : 1 ≤ k) (hh : k ≤ h) (hw : k ≤ w) :
    ((Backbone.init r).conv1.in_channels = 1 ∧ (Backbone.init r).conv1.out_channels = 32 ∧
     (Backbone.init r).conv2.in_channels = 32 ∧ (Backbone.init r).conv2.out_channels = 64 ∧
     (Backbone.init r).conv3.in_channels = 64 ∧ (Backbone.init r).conv3.out_channels = 128 ∧
     (Backbone.init r).conv4.in_channels = 128 ∧ (Backbone.init r).conv4.out_channels = 256 ∧
     (Backbone.init r).conv5.in_channels = 256 ∧ (Backbone.init r).conv5.out_channels = 512) ∧
    ((Backbone.init r).conv1.stride = 1 ∧ (Backbone.init r).conv2.stride = 1 ∧
     (Backbone.init r).conv3.stride = 1 ∧ (Backbone.init r).conv4.stride = 1 ∧
     (Backbone.init r).conv5.stride = 1) ∧
    ((Backbone.init r).conv1.padding = Padding.same ∧
     (Backbone.init r).conv2.padding = Padding.same ∧
     (Backbone.init r).conv3.padding = Padding.same ∧
     (Backbone.init r).conv4.padding = Padding.same ∧
     (Backbone.init r).conv5.padding = Padding.same) ∧
    ((Backbone.init r).conv1.max_pool_size = 2 ∧ (Backbone.init r).conv2.max_pool_size = 2 ∧
     (Backbone.init r).conv3.max_pool_size = 2 ∧ (Backbone.init r).conv4.max_pool_size = 2 ∧
     (Backbone.init r).conv5.max_pool_size = 4) ∧
    (Backbone.init r).stages =
      [(Backbone.init r).melspec.forwardShape, (Backbone.init r).conv1.forward,
       (Backbone.init r).conv2.forward, (Backbone.init r).conv3.forward,
       (Backbone.init r).conv4.forward, (Backbone.init r).conv5.forward, finalStage] ∧
    (∀ (cfg : ConvBlock) (s : List Nat),
      cfg.forward s =
        (((conv2dShape cfg s).bind (groupNormShape cfg.num_groups cfg.out_channels)).bind
            reluShape).bind (maxPool2dShape cfg.max_pool_size)) ∧
    maxPool2dShape k [b, c, h, w] = some [b, c, h / k, w / k] := by
  refine ⟨⟨rfl, rfl, rfl, rfl, rfl, rfl, rfl, rfl, rfl, rfl⟩, ⟨rfl, rfl, rfl, rfl, rfl⟩,
    ⟨rfl, rfl, rfl, rfl, rfl⟩, ⟨rfl, rfl, rfl, rfl, rfl⟩, rfl, fun _ _ => rfl, ?_⟩
  simp [maxPool2dShape, hh, hw]

theorem backbone_architecture_witness :
    1 ≤ 2 ∧ 2 ≤ 64 ∧ 2 ≤ 81 ∧ maxPool2dShape 2 [1, 32, 64, 81] = some [1, 32, 32, 40] :=
  ⟨by decide, by decide, by decide,
   (backbone_architecture 16000 2 1 32 64 81 (by decide) (by decide) (by decide)).2.2.2.2.2.2⟩

/-- Claim C4: the final stage of `Backbone.forward` is the time-axis mean
followed by the two squeezes of singleton axes; on any valid input the fifth
block's feature map has shape `[B, 512, 1, t]`, and the final stage turns it
into exactly one 512-dimensional vector per input clip, a rank-2 `[B, 512]`
result. -/
theorem backbone_final_stage (r B S : Nat) (hS : 12600 ≤ S) :
    (∀ s : List Nat, finalStage s = (meanLastShape s).map fun t => squeezeLast (squeezeLast t)) ∧
    ∃ t, (Backbone.init r).features [B, 1, S] = some [B, 512, 1, t] ∧
      finalStage [B, 512, 1, t] = some [B, 512] ∧
      (Backbone.init r).forwardShape [B, 1, S] = some [B, 512] ∧
      ([B, 512] : List Nat).length = 2 :=
  ⟨fun _ => rfl, ⟨_, features_eval r B S hS, rfl, forwardShape_eval r B S hS, rfl⟩⟩

theorem backbone_final_stage_witness :
    12600 ≤ 16000 ∧
      ∃ t, (Backbone.init 16000).features [4, 1, 16000] = some [4, 512, 1, t] ∧
        finalStage [4, 512, 1, t] = some [4, 512] ∧
        (Backbone.init 16000).forwardShape [4, 1, 16000] = some [4, 512] ∧
        ([4, 512] : List Nat).length = 2 :=
  ⟨by decide, (backbone_final_stage 16000 4 16000 (by decide)).2⟩

/-- Claim C5: `Backbone.forward` performs no runtime check of the input
audio's actual sample rate: the whole evaluation — including whether an
error is signaled — is identical for any two actual sample rates, and every
shape-valid input that survives the pooling chain evaluates without error
under any actual sample rate, matching the configured one or not.  A
sample-rate mismatch is silent, never detected. -/
theorem backbone_no_sample_rate_check (m : Backbone) (d : List Nat)
    (r₁ r₂ cfg B S inRate : Nat) (hS : 12600 ≤ S) :
    m.forward ⟨d, r₁⟩ = m.forward ⟨d, r₂⟩ ∧
      (Backbone.init cfg).forward ⟨[B, 1, S], inRate⟩ = some [B, 512] :=
  ⟨rfl, forwardShape_eval cfg B S hS⟩

theorem backbone_no_sample_rate_check_witness :
    (Backbone.init 16000).forward ⟨[4, 1, 16000], 16000⟩ =
        (Backbone.init 16000).forward ⟨[4, 1, 16000], 44100⟩ ∧
      (Backbone.init 16000).forward ⟨[4, 1, 16000], 44100⟩ = some [4, 512] :=
  backbone_no_sample_rate_check (Backbone.init 16000) [4, 1, 16000] 16000 44100 16000 4 16000
    44100 (by decide)

/-- Claim C6: `Backbone.forward` is deterministic — any two evaluations of
the forward pass on the same module state and the same input reach the same
outcome. -/
theorem backbone_forward_deterministic (m : Backbone) (x : AudioBatch)
    (o₁ o₂ : Option (List Nat)) (h₁ : ForwardEval m x o₁) (h₂ : ForwardEval m x o₂) :
    o₁ = o₂ := by
  cases h₁ with
  | reject ha₁ =>
    cases h₂ with
    | reject _ => rfl
    | accept _ ha₂ _ => rw [ha₁] at ha₂; cases ha₂
  | accept o₁ ha₁ hr₁ =>
    cases h₂ with
    | reject ha₂ => rw [ha₂] at ha₁; cases ha₁
    | accept o₂ ha₂ hr₂ => exact runStages_det hr₁ hr₂

theorem backbone_forward_deterministic_witness :
    (Backbone.init 16000).forward ⟨[4, 1, 16000], 44100⟩ = some [4, 512] := by
  have hv : (Backbone.init 16000).forward ⟨[4, 1, 16000], 44100⟩ = some [4, 512] := by decide
  exact backbone_forward_deterministic _ _ _ _ (forwardEval_forward _ _)
    (hv ▸ forwardEval_forward _ _)

/-- Claim C7: the state-passing reading of the `Backbone.forward` body never
mutates the module state: after the call, `self` — including the stored
`sample_rate` — is exactly what it was before, and the returned value is the
forward result. -/
theorem backbone_forward_preserves_state (m : Backbone) (x : AudioBatch) :
    (m.forwardM x).1 = m ∧ (m.forwardM x).1.sample_rate = m.sample_rate ∧
      (m.forwardM x).2 = m.forward x := by
  refine ⟨?_, ?_, ?_⟩ <;>
    · simp only [Backbone.forwardM, Backbone.forward, Backbone.forwardShape, Backbone.features]
      split <;> rfl

/-- Claim C8: if a query embedding equals the prototype of class `c` (the
mean of that class's support embeddings), then the logit of class `c` — the
negative squared Euclidean distance to the prototype — is maximal among the
logits of all classes of the episode. -/
theorem protonet_query_at_prototype_max (supports : List (List (List ℚ))) (q : List ℚ)
    (c : Nat) (hc : c < supports.length) (hq : q = prototype (supports.get ⟨c, hc⟩))
    (c' : Nat) (hc' : c' < supports.length) :
    logit q (prototype (supports.get ⟨c', hc'⟩)) ≤ logit q (prototype (supports.get ⟨c, hc⟩)) := by
  have h0 : logit q (prototype (supports.get ⟨c, hc⟩)) = 0 := by
    rw [hq, logit, sqDist_self, neg_zero]
  rw [h0, logit, neg_nonpos]
  exact sqDist_nonneg _ _

theorem protonet_query_at_prototype_max_witness :
    logit [2, 3] (prototype [[(10 : ℚ), 0], [0, 10]]) ≤
      logit [2, 3] (prototype [[(1 : ℚ), 2], [3, 4]]) :=
  protonet_query_at_prototype_max [[[(1 : ℚ), 2], [3, 4]], [[10, 0], [0, 10]]] [2, 3] 0
    (by decide) (by norm_num [prototype, vecSum]) 1 (by decide)

/-- Claim C9: the spectrogram has 64 mel bins and the five pooling stages
divide the frequency axis by 2·2·2·2·4 = 64 exactly, so the fifth block's
feature map has frequency dimension 1; the two squeezes therefore remove
only singleton axes — never the 512-channel axis — and the output is the
rank-2 shape `[B, 512]`. -/
theorem backbone_mel_bins_collapse (r B S : Nat) (hS : 12600 ≤ S) :
    (Backbone.init r).melspec.n_mels = 64 ∧
    (Backbone.init r).conv1.max_pool_size * (Backbone.init r).conv2.max_pool_size *
        (Backbone.init r).conv3.max_pool_size * (Backbone.init r).conv4.max_pool_size *
        (Backbone.init r).conv5.max_pool_size = (Backbone.init r).melspec.n_mels ∧
    (∃ t, (Backbone.init r).features [B, 1, S] = some [B, 512, 1, t]) ∧
    squeezeLast (squeezeLast [B, 512, 1]) = [B, 512] ∧
    (Backbone.init r).forwardShape [B, 1, S] = some [B, 512] :=
  ⟨rfl, rfl, ⟨_, features_eval r B S hS⟩, rfl, forwardShape_eval r B S hS⟩

theorem backbone_mel_bins_collapse_witness :
    12600 ≤ 16000 ∧
      (∃ t, (Backbone.init 16000).features [4, 1, 16000] = some [4, 512, 1, t]) ∧
      (Backbone.init 16000).forwardShape [4, 1, 16000] = some [4, 512] :=
  ⟨by decide, (backbone_mel_bins_collapse 16000 4 16000 (by decide)).2.2.1,
   (backbone_mel_bins_collapse 16000 4 16000 (by decide)).2.2.2.2⟩

/-- Claim C10: `count_parameters` returns exactly the sum of the element
counts of the parameters with `requires_grad` set — trainable parameters are
counted, frozen parameters contribute nothing. -/
theorem count_parameters_trainable_only (m : Model) :
    count_parameters m =
      (m.parameters.map fun p => if p.requires_grad then p.numel else 0).sum := by
  obtain ⟨ps⟩ := m
  simp only [count_parameters]
  induction ps with
  | nil => rfl
  | cons p ps ih =>
    cases hp : p.requires_grad <;> simp [List.filter_cons, hp, ih]

end MusicFSL
